import Mathlib

/-!
Shallow embedding of the orchestration core of the audio-analyzer service
(`src/services/audio-analyzer/analyzer.py`): the TaskStore rows it reads and
writes, the two reclamation sweeps, the failure path with its FailureLedger
upsert, the worker-pool resize/recreate logic, the main loop tick, the pull
query for pending work, and the per-worker task function.

Timestamps are modelled as integers measured in minutes (the staleness
threshold `STALE_PROCESSING_MINUTES` is given in minutes).  Database `NULL`
columns become `Option`.  Task statuses are the literal strings the SQL
compares against.  External effects (pool creation/shutdown, sleeps, sweeps)
are recorded as an explicit action trace so ordering claims can be stated.
-/

/-- A row of the `Track` table, restricted to the columns the orchestration
core reads or writes.  `analysisRetryCount` and `analysisStartedAt` are
nullable in the schema (the SQL wraps the former in `COALESCE(_, 0)`). -/
structure Track where
  id : String
  filePath : String
  title : Option String
  artistId : Option String
  analysisStatus : String
  analysisRetryCount : Option Nat
  analysisStartedAt : Option Int
  updatedAt : Int
  fileModified : Int
  analysisError : Option String
  deriving Repr, DecidableEq

/-- The `COALESCE("analysisRetryCount", 0)` idiom used by every query. -/
def rc0 (t : Track) : Nat := t.analysisRetryCount.getD 0

/-- Metadata blob stored in the `EnrichmentFailure.metadata` JSON column by
`_save_failed`. -/
structure FailureMetadata where
  filePath : Option String
  artistId : Option String
  retryCount : Nat
  maxRetries : Nat
  deriving Repr, DecidableEq

/-- A row of the `EnrichmentFailure` table (the failure ledger), keyed by
(`entityType`, `entityId`). -/
structure FailureRecord where
  entityType : String
  entityId : String
  entityName : Option String
  errorMessage : String
  lastFailedAt : Int
  retryCount : Nat
  metadata : FailureMetadata
  resolved : Bool
  skipped : Bool
  deriving Repr, DecidableEq

/-- The durable state the orchestrator mutates: the `Track` table and the
`EnrichmentFailure` ledger. -/
structure DB where
  tracks : List Track
  failures : List FailureRecord
  deriving Repr, DecidableEq

/-- Row lookup by primary key in the `Track` table. -/
def findTrack (db : DB) (trackId : String) : Option Track :=
  db.tracks.find? (fun t => t.id == trackId)

/-- Row lookup by the (`entityType`, `entityId`) unique key of the ledger. -/
def findFailure (db : DB) (entityType entityId : String) : Option FailureRecord :=
  db.failures.find? (fun f => f.entityType == entityType && f.entityId == entityId)

/-- Staleness test of `_cleanup_stale_processing`: prefer `analysisStartedAt`
when present, otherwise fall back to `updatedAt`; both are compared against
`NOW() - INTERVAL (staleMinutes) minutes`. -/
def isStale (now staleMinutes : Int) (t : Track) : Bool :=
  match t.analysisStartedAt with
  | some s => s < now - staleMinutes
  | none => t.updatedAt < now - staleMinutes

/-- Per-row effect of the `UPDATE` in `_cleanup_stale_processing`
(analyzer.py:1202-1216): a `processing` row that is stale and below the retry
ceiling goes back to `pending`, its `analysisStartedAt` is cleared and its
retry count is bumped by one; every other row is untouched. -/
def cleanupStaleOne (now staleMinutes : Int) (maxRetries : Nat) (t : Track) : Track :=
  if t.analysisStatus == "processing" && isStale now staleMinutes t
      && rc0 t < maxRetries then
    { t with
      analysisStatus := "pending"
      analysisStartedAt := none
      analysisRetryCount := some (rc0 t + 1) }
  else t

/-- One run of the stale-processing sweep over the whole `Track` table. -/
def cleanupStaleProcessing (now staleMinutes : Int) (maxRetries : Nat)
    (db : DB) : DB :=
  { db with tracks := db.tracks.map (cleanupStaleOne now staleMinutes maxRetries) }

/-- Per-row effect of the `UPDATE` in `_retry_failed_tracks`
(analyzer.py:1235-1243): a `failed` row below the retry ceiling goes back to
`pending` with its error cleared; every other row is untouched. -/
def retryFailedOne (maxRetries : Nat) (t : Track) : Track :=
  if t.analysisStatus == "failed" && rc0 t < maxRetries then
    { t with
      analysisStatus := "pending"
      analysisError := none }
  else t

/-- One run of the failed-retry sweep over the whole `Track` table. -/
def retryFailedTracks (maxRetries : Nat) (db : DB) : DB :=
  { db with tracks := db.tracks.map (retryFailedOne maxRetries) }

/-- Count reported (not mutated) by the second query of `_retry_failed_tracks`:
failed rows at or above the retry ceiling. -/
def permanentlyFailedCount (maxRetries : Nat) (db : DB) : Nat :=
  (db.tracks.filter
    (fun t => t.analysisStatus == "failed" && maxRetries ≤ rc0 t)).length

/-- Batched `UPDATE ... SET "analysisStatus" = 'processing' WHERE id = ANY(%s)`
of `_process_tracks_parallel` (analyzer.py:1435-1439). -/
def markProcessing (trackIds : List String) (db : DB) : DB :=
  { db with
    tracks := db.tracks.map (fun t =>
      if trackIds.contains t.id then { t with analysisStatus := "processing" }
      else t) }

/-- Python slice `error[:500]` used by `_save_failed`: the first 500
characters of the error message. -/
def truncate500 (s : String) : String := String.mk (s.data.take 500)

/-- Failure path `_save_failed` (analyzer.py:1551-1616).  Looks the track up;
if it exists, marks it `failed`, stores the error truncated to 500 characters,
bumps its retry count, and upserts the ledger row keyed by
`('audio', trackId)`: on first failure the row is inserted with
`retryCount = 1`, on conflict `errorMessage`, `lastFailedAt` and `metadata`
are overwritten, `retryCount` is incremented, and `resolved`/`skipped` are
reset to false.  A missing track leaves the database unchanged (the `UPDATE`
matches no row and the insert is guarded on the fetched track). -/
def saveFailed (now : Int) (maxRetries : Nat) (db : DB)
    (trackId error : String) : DB :=
  match findTrack db trackId with
  | none => db
  | some t =>
    let newRc := rc0 t + 1
    let truncated := truncate500 error
    let t1 := { t with
      analysisStatus := "failed"
      analysisError := some truncated
      analysisRetryCount := some newRc }
    let meta : FailureMetadata :=
      { filePath := some t.filePath
        artistId := t.artistId
        retryCount := newRc
        maxRetries := maxRetries }
    let failures1 :=
      match findFailure db "audio" trackId with
      | none =>
        db.failures ++ [{
          entityType := "audio"
          entityId := trackId
          entityName := t.title
          errorMessage := truncated
          lastFailedAt := now
          retryCount := 1
          metadata := meta
          resolved := false
          skipped := false }]
      | some _ =>
        db.failures.map (fun f =>
          if f.entityType == "audio" && f.entityId == trackId then
            { f with
              errorMessage := truncated
              lastFailedAt := now
              retryCount := f.retryCount + 1
              metadata := meta
              resolved := false
              skipped := false }
          else f)
    { tracks := db.tracks.map (fun u => if u.id == trackId then t1 else u)
      failures := failures1 }

/-- Ledger retry count for a track, 0 when no row exists. -/
def ledgerRetryCount (db : DB) (trackId : String) : Nat :=
  match findFailure db "audio" trackId with
  | some f => f.retryCount
  | none => 0

/-- Conservative default worker count (`DEFAULT_WORKERS = 2`). -/
def DEFAULT_WORKERS : Int := 2

/-- Clamp applied to worker counts, `max(1, min(8, n))`. -/
def clampWorkers (n : Int) : Int := max 1 (min 8 n)

/-- Outcome of the `SystemSettings` query in `_get_workers_from_db`: a row
with a (nullable) `audioAnalyzerWorkers` value, no row, or a database
error. -/
inductive DbWorkersFetch where
  | row (audioAnalyzerWorkers : Option Int)
  | noRow
  | dbError
  deriving Repr, DecidableEq

/-- Worker-count resolution `_get_workers_from_db` (analyzer.py:138-172): a
non-null database value is clamped into [1,8]; a missing row, a null value or
a query failure falls back to the `NUM_WORKERS` environment variable (parsed,
unclamped) or to `DEFAULT_WORKERS`. -/
def getWorkersFromDb (fetch : DbWorkersFetch) (envNumWorkers : Option Int) : Int :=
  match fetch with
  | .row (some w) => clampWorkers w
  | .row none => envNumWorkers.getD DEFAULT_WORKERS
  | .noRow => envNumWorkers.getD DEFAULT_WORKERS
  | .dbError => envNumWorkers.getD DEFAULT_WORKERS

/-- Externally observable side effects of the orchestrator, recorded in order.
`shutdownPool` carries the `wait` flag passed to `executor.shutdown`. -/
inductive Effect where
  | createPool (size : Int)
  | shutdownPool (pool : Nat) (wait : Bool)
  | staleSweep
  | failedRetrySweep
  | reconnectDb
  | healthCheck
  | sleepSec (seconds : Nat)
  deriving Repr, DecidableEq

/-- Mutable state of `AnalysisWorker` that the control loop touches: the
`running` and `is_paused` flags, the `consecutive_empty` counter, the global
`NUM_WORKERS`, and the identity of the current `ProcessPoolExecutor`
(`pool` is a generation counter; `nextPool` supplies fresh identities). -/
structure LoopState where
  running : Bool
  isPaused : Bool
  consecutiveEmpty : Nat
  numWorkers : Int
  pool : Nat
  nextPool : Nat
  deriving Repr, DecidableEq

/-- The `_resize_worker_pool` method (analyzer.py:1115-1145): a count equal to
the current `NUM_WORKERS` returns immediately; otherwise a new pool of the new
size is created first, and only afterwards is the old pool shut down with
`wait=True`. -/
def resizeWorkerPool (st : LoopState) (newCount : Int) : LoopState × List Effect :=
  if newCount == st.numWorkers then (st, [])
  else
    ({ st with
        numWorkers := newCount
        pool := st.nextPool
        nextPool := st.nextPool + 1 },
      [Effect.createPool newCount, Effect.shutdownPool st.pool true])

/-- The `_recreate_pool` method (analyzer.py:1167-1194): best-effort shutdown
of the old pool without waiting, a two-second cooldown, then a fresh pool of
the currently configured size. -/
def recreatePool (st : LoopState) : LoopState × List Effect :=
  ({ st with pool := st.nextPool, nextPool := st.nextPool + 1 },
    [Effect.shutdownPool st.pool false, Effect.sleepSec 2,
      Effect.createPool st.numWorkers])

/-- Decoded control message, as produced by the parsing policy of
`_check_control_signals`: a structured `set_workers` command (whose `count`
field may be absent), one of the three plain literals, or anything else
(ignored). -/
inductive ControlSignal where
  | setWorkers (count : Option Int)
  | pause
  | resume
  | stop
  | ignored
  deriving Repr, DecidableEq

/-- Effect of `_check_control_signals` (analyzer.py:1079-1113) on the worker
state: `set_workers` clamps the count (defaulting to the current
`NUM_WORKERS`) into [1,8] and resizes; `pause`/`resume` toggle `is_paused`;
`stop` clears `running`; unrecognized payloads do nothing. -/
def checkControlSignals (st : LoopState) (sig : ControlSignal) :
    LoopState × List Effect :=
  match sig with
  | .setWorkers count =>
    resizeWorkerPool st (clampWorkers (count.getD st.numWorkers))
  | .pause => ({ st with isPaused := true }, [])
  | .resume => ({ st with isPaused := false }, [])
  | .stop => ({ st with running := false }, [])
  | .ignored => (st, [])

/-- How the body of one loop iteration (`process_batch_parallel` and the
result handling) terminates: normally with or without work, or by raising
`KeyboardInterrupt`, `BrokenProcessPool`, or any other exception.  For the
generic-error branch, `poolHealthy` records what `_check_pool_health` would
report during recovery. -/
inductive BodyOutcome where
  | ok (hasWork : Bool)
  | keyboardInterrupt
  | poolBroken
  | otherError (poolHealthy : Bool)
  deriving Repr, DecidableEq

/-- One iteration of the `while self.running` loop in `start`
(analyzer.py:1306-1364): check control signals; if paused, sleep one second
and go round again; otherwise run the batch body.  An empty batch bumps
`consecutive_empty` and, at 10, runs both sweeps and resets the counter; a
non-empty batch resets it.  `KeyboardInterrupt` clears `running`;
`BrokenProcessPool` recreates the pool and runs the stale sweep; any other
exception bumps the counter and, at 5, reconnects the store, runs both
sweeps, health-checks (recreating on failure), resets the counter, and in all
error cases sleeps the backoff interval. -/
def loopTick (sleepInterval : Nat) (st : LoopState) (sig : ControlSignal)
    (out : BodyOutcome) : LoopState × List Effect :=
  let (st1, acts1) := checkControlSignals st sig
  if st1.isPaused then (st1, acts1 ++ [Effect.sleepSec 1])
  else
    match out with
    | .ok hasWork =>
      if hasWork then ({ st1 with consecutiveEmpty := 0 }, acts1)
      else
        if 10 ≤ st1.consecutiveEmpty + 1 then
          ({ st1 with consecutiveEmpty := 0 },
            acts1 ++ [Effect.staleSweep, Effect.failedRetrySweep])
        else ({ st1 with consecutiveEmpty := st1.consecutiveEmpty + 1 }, acts1)
    | .keyboardInterrupt => ({ st1 with running := false }, acts1)
    | .poolBroken =>
      let (st2, acts2) := recreatePool st1
      (st2, acts1 ++ acts2 ++ [Effect.staleSweep])
    | .otherError poolHealthy =>
      if 5 ≤ st1.consecutiveEmpty + 1 then
        let recov :=
          [Effect.reconnectDb, Effect.staleSweep, Effect.failedRetrySweep,
            Effect.healthCheck]
        if poolHealthy then
          ({ st1 with consecutiveEmpty := 0 },
            acts1 ++ recov ++ [Effect.sleepSec sleepInterval])
        else
          let (st2, acts2) := recreatePool st1
          ({ st2 with consecutiveEmpty := 0 },
            acts1 ++ recov ++ acts2 ++ [Effect.sleepSec sleepInterval])
      else
        ({ st1 with consecutiveEmpty := st1.consecutiveEmpty + 1 },
          acts1 ++ [Effect.sleepSec sleepInterval])

/-- A JSON envelope popped from the Redis push queue (`{trackId, filePath}`). -/
structure QueueJob where
  trackId : String
  filePath : String
  deriving Repr, DecidableEq

/-- The `lpop` loop at the top of `process_batch_parallel`
(analyzer.py:1382-1388): drain up to `batchSize` envelopes, stopping early
when the queue is empty. -/
def drainQueue (queue : List QueueJob) (batchSize : Nat) : List QueueJob :=
  queue.take batchSize

/-- Rows the fallback query ranges over: `WHERE "analysisStatus" = 'pending'`. -/
def pendingTracks (tracks : List Track) : List Track :=
  tracks.filter (fun t => t.analysisStatus == "pending")

/-- Relational semantics of the fallback pull query
(analyzer.py:1397-1403): `SELECT ... WHERE "analysisStatus" = 'pending'
ORDER BY "fileModified" DESC LIMIT batchSize`.  SQL fixes only the weakly
descending `fileModified` order; any arrangement of equal keys is a valid
answer, so the result is any `batchSize`-prefix of any such ordering of the
pending rows. -/
def isValidPullResult (tracks : List Track) (batchSize : Nat)
    (res : List Track) : Prop :=
  ∃ ordered : List Track,
    ordered.Perm (pendingTracks tracks) ∧
    ordered.Pairwise (fun a b => b.fileModified ≤ a.fileModified) ∧
    res = ordered.take batchSize

/-- Environment of one `_analyze_track_in_process` call (analyzer.py:1017-1052),
covering each exit of the function: the `os.fsencode`/`os.fsdecode` round trip
fails, the file does not exist, the opaque analyzer returns a feature
dictionary, or it raises (`UnicodeDecodeError` or any other exception). -/
inductive WorkerEnv where
  | fsdecodeError
  | fileMissing
  | analyzeReturns (features : List (String × String))
  | analyzeRaisesUnicode (msg : String)
  | analyzeRaises (msg : String)
  deriving Repr, DecidableEq

/-- Whether the environment makes the call take one of its error exits. -/
def isWorkerError (env : WorkerEnv) : Bool :=
  match env with
  | .analyzeReturns _ => false
  | _ => true

/-- The per-worker task function `_analyze_track_in_process`
(analyzer.py:1017-1052).  Dictionaries are modelled as association lists.
Every exception branch of the source is a constructor of `WorkerEnv`, so the
function is total by construction: each branch returns a
`(track_id, file_path, dict)` triple, the error branches tagging the
dictionary with the `_error` key exactly as the source does. -/
def analyzeTrackInProcess (env : WorkerEnv) (trackId filePath : String) :
    String × String × List (String × String) :=
  match env with
  | .fsdecodeError =>
    (trackId, filePath, [("_error", "Invalid characters in file path")])
  | .fileMissing =>
    (trackId, filePath, [("_error", "File not found")])
  | .analyzeReturns features =>
    (trackId, filePath, features)
  | .analyzeRaisesUnicode msg =>
    (trackId, filePath, [("_error", "UTF-8 encoding error: " ++ msg)])
  | .analyzeRaises msg =>
    (trackId, filePath, [("_error", msg)])

/-- Concrete `processing` row used to exercise the sweeps: started at minute
0, never retried. -/
def sampleStale : Track :=
  { id := "t1"
    filePath := "a.mp3"
    title := some "A"
    artistId := none
    analysisStatus := "processing"
    analysisRetryCount := none
    analysisStartedAt := some 0
    updatedAt := 0
    fileModified := 0
    analysisError := none }

/-- Concrete `failed` row below the retry ceiling. -/
def sampleFailed : Track :=
  { sampleStale with
    analysisStatus := "failed"
    analysisRetryCount := some 1
    analysisError := some "boom" }

/-- Single-track database used to exercise the failure path. -/
def sampleDb : DB := { tracks := [sampleStale], failures := [] }

/-- Track driving the ledger-lag scenario: stuck in `processing` with no
`analysisStartedAt`, last modified at minute 0. -/
def cxTrack : Track :=
  { id := "cx"
    filePath := "p.mp3"
    title := none
    artistId := none
    analysisStatus := "processing"
    analysisRetryCount := none
    analysisStartedAt := none
    updatedAt := 0
    fileModified := 0
    analysisError := none }

/-- Ledger-lag scenario with `maxRetries = 3` and
`staleProcessingMinutes = 10`: the task is reclaimed once by the
stale-processing sweep (retry count 1, no ledger write), then fails twice
through the failure path (retry counts 2 and 3, ledger counts 1 and 2),
reaching the retry ceiling. -/
def cxDbFinal : DB :=
  saveFailed 200 3
    (markProcessing ["cx"]
      (retryFailedTracks 3
        (saveFailed 100 3
          (markProcessing ["cx"]
            (cleanupStaleProcessing 100 10 3 { tracks := [cxTrack], failures := [] }))
          "cx" "boom")))
    "cx" "boom again"

/-- Pending track `a`, file modified at minute 5. -/
def pullTrackA : Track :=
  { id := "a"
    filePath := "a.mp3"
    title := none
    artistId := none
    analysisStatus := "pending"
    analysisRetryCount := none
    analysisStartedAt := none
    updatedAt := 0
    fileModified := 5
    analysisError := none }

/-- Pending track `b` with the same modification time as `pullTrackA`. -/
def pullTrackB : Track :=
  { pullTrackA with id := "b", filePath := "b.mp3" }

/-- Two pending tracks tied on `fileModified`. -/
def pullDemo : List Track := [pullTrackA, pullTrackB]

/-- Concrete running orchestrator state: two workers, pool generation 0. -/
def sampleLoopState : LoopState :=
  { running := true
    isPaused := false
    consecutiveEmpty := 0
    numWorkers := 2
    pool := 0
    nextPool := 1 }

theorem find?_map_update {α : Type} (p : α → Bool) (u : α → α) (l : List α) (a : α)
    (h : l.find? p = some a) (hu : ∀ x, p x = true → p (u x) = true) :
    (l.map (fun x => if p x then u x else x)).find? p = some (u a) := by
  induction l with
  | nil => simp at h
  | cons b l ih =>
    cases hb : p b with
    | true =>
      have hba : b = a := by
        have := List.find?_cons_of_pos (p := p) l hb
        rw [this] at h
        exact Option.some.inj h
      subst hba
      simp [hb, List.find?_cons_of_pos, hu b hb]
    | false =>
      have h' : l.find? p = some a := by
        have := List.find?_cons_of_neg (p := p) (a := b) l (by simp [hb])
        rw [this] at h
        exact h
      simp [hb, List.find?_cons_of_neg, ih h']

theorem find?_append_singleton {α : Type} (p : α → Bool) (l : List α) (x : α)
    (h : l.find? p = none) (hx : p x = true) :
    (l ++ [x]).find? p = some x := by
  induction l with
  | nil => simp [List.find?_cons_of_pos, hx]
  | cons b l ih =>
    cases hb : p b with
    | true => simp [List.find?_cons_of_pos, hb] at h
    | false =>
      have h' : l.find? p = none := by
        have := List.find?_cons_of_neg (p := p) (a := b) l (by simp [hb])
        rw [this] at h
        exact h
      simp [List.find?_cons_of_neg, hb, ih h']

/-- C1: a `processing` task whose `analysisStartedAt` (or, when absent, its
`updatedAt`) is older than the staleness threshold and whose retry count is
strictly below the maximum is set back to `pending` with its retry count
incremented by exactly one by a run of the stale-processing sweep; a
`processing` task at or above the maximum, or not yet stale, is left
unchanged. -/
theorem stale_sweep_resets_eligible_only (now staleMinutes : Int)
    (maxRetries : Nat) (t : Track) (hproc : t.analysisStatus = "processing") :
    (isStale now staleMinutes t = true → rc0 t < maxRetries →
      cleanupStaleOne now staleMinutes maxRetries t =
        { t with
            analysisStatus := "pending"
            analysisStartedAt := none
            analysisRetryCount := some (rc0 t + 1) }) ∧
    (maxRetries ≤ rc0 t ∨ isStale now staleMinutes t = false →
      cleanupStaleOne now staleMinutes maxRetries t = t) := by
  constructor
  · intro hs hrc
    simp [cleanupStaleOne, hproc, hs, hrc]
  · intro h
    rcases h with hrc | hs
    · have hn : ¬ rc0 t < maxRetries := Nat.not_lt.mpr hrc
      simp [cleanupStaleOne, hn]
    · simp [cleanupStaleOne, hs]

/-- Witness for C1 at a concrete stale track. -/
theorem stale_sweep_resets_eligible_only_witness :
    cleanupStaleOne 20 10 3 sampleStale =
      { sampleStale with
          analysisStatus := "pending"
          analysisStartedAt := none
          analysisRetryCount := some (rc0 sampleStale + 1) } :=
  (stale_sweep_resets_eligible_only 20 10 3 sampleStale rfl).1 (by decide) (by decide)

/-- C6: the failed-retry sweep sets a `failed` task below the retry ceiling
back to `pending` and clears its stored error, leaving every other field (the
retry count included) as it was; a `failed` task at or above the ceiling is
left entirely unchanged, and is merely counted by `permanentlyFailedCount`. -/
theorem failed_retry_sweep_resets_eligible_only (maxRetries : Nat) (t : Track)
    (hfail : t.analysisStatus = "failed") :
    (rc0 t < maxRetries →
      retryFailedOne maxRetries t =
        { t with analysisStatus := "pending", analysisError := none }) ∧
    (maxRetries ≤ rc0 t →
      retryFailedOne maxRetries t = t ∧
      permanentlyFailedCount maxRetries { tracks := [t], failures := [] } = 1) := by
  constructor
  · intro hrc
    simp [retryFailedOne, hfail, hrc]
  · intro hrc
    have hn : ¬ rc0 t < maxRetries := Nat.not_lt.mpr hrc
    constructor
    · simp [retryFailedOne, hn]
    · simp [permanentlyFailedCount, hfail, hrc]

/-- Witness for C6 at a concrete failed track with retry count 1 and
ceiling 3. -/
theorem failed_retry_sweep_resets_eligible_only_witness :
    retryFailedOne 3 sampleFailed =
      { sampleFailed with analysisStatus := "pending", analysisError := none } :=
  (failed_retry_sweep_resets_eligible_only 3 sampleFailed rfl).1 (by decide)

/-- C10: `_analyze_track_in_process` is total over its modelled exception
domain: for every environment it returns a `(track_id, file_path, dict)`
triple, and every error exit (undecodable path, missing file, exception from
the analyzer) yields a dictionary carrying the `_error` key. -/
theorem analyze_track_total (env : WorkerEnv) (trackId filePath : String) :
    (analyzeTrackInProcess env trackId filePath).1 = trackId ∧
    (analyzeTrackInProcess env trackId filePath).2.1 = filePath ∧
    (isWorkerError env = true →
      ((analyzeTrackInProcess env trackId filePath).2.2.lookup "_error").isSome
        = true) := by
  cases env <;> simp [analyzeTrackInProcess, isWorkerError]

/-- Witness for C10 at the missing-file exit. -/
theorem analyze_track_total_witness :
    ((analyzeTrackInProcess WorkerEnv.fileMissing "t1" "x.mp3").2.2.lookup
      "_error").isSome = true :=
  (analyze_track_total WorkerEnv.fileMissing "t1" "x.mp3").2.2 rfl

/-- C5: for a task that exists in the store, the failure path increments its
retry count by one, stores the error truncated to 500 characters, sets its
status to `failed`, and upserts the ledger row keyed by `('audio', id)`: a
fresh row starts at `retryCount = 1`, while on conflict `errorMessage` and
`metadata` are overwritten, `retryCount` is incremented, and `resolved` and
`skipped` are both reset to false. -/
theorem save_failed_updates_track_and_ledger (now : Int) (maxRetries : Nat)
    (db : DB) (tid err : String) (t : Track) (ht : findTrack db tid = some t) :
    findTrack (saveFailed now maxRetries db tid err) tid =
      some { t with
          analysisStatus := "failed"
          analysisError := some (truncate500 err)
          analysisRetryCount := some (rc0 t + 1) } ∧
    (truncate500 err).length ≤ 500 ∧
    (findFailure db "audio" tid = none →
      findFailure (saveFailed now maxRetries db tid err) "audio" tid =
        some { entityType := "audio"
               entityId := tid
               entityName := t.title
               errorMessage := truncate500 err
               lastFailedAt := now
               retryCount := 1
               metadata := { filePath := some t.filePath
                             artistId := t.artistId
                             retryCount := rc0 t + 1
                             maxRetries := maxRetries }
               resolved := false
               skipped := false }) ∧
    (∀ f, findFailure db "audio" tid = some f →
      findFailure (saveFailed now maxRetries db tid err) "audio" tid =
        some { f with
            errorMessage := truncate500 err
            lastFailedAt := now
            retryCount := f.retryCount + 1
            metadata := { filePath := some t.filePath
                          artistId := t.artistId
                          retryCount := rc0 t + 1
                          maxRetries := maxRetries }
            resolved := false
            skipped := false }) := by
  have htu : db.tracks.find? (fun u => u.id == tid) = some t := ht
  have hpt : (t.id == tid) = true := by simpa using List.find?_some htu
  refine ⟨?_, ?_, ?_, ?_⟩
  · show (saveFailed now maxRetries db tid err).tracks.find?
      (fun u => u.id == tid) = _
    simp only [saveFailed, ht]
    exact find?_map_update _ _ _ _ htu (fun x _ => hpt)
  · exact List.length_take_le 500 err.data
  · intro hnone
    have hn : db.failures.find?
        (fun f => f.entityType == "audio" && f.entityId == tid) = none := hnone
    show (saveFailed now maxRetries db tid err).failures.find?
      (fun f => f.entityType == "audio" && f.entityId == tid) = _
    simp only [saveFailed, ht, findFailure, hn]
    exact find?_append_singleton _ _ _ hn (by simp)
  · intro f hf
    have hfu : db.failures.find?
        (fun x => x.entityType == "audio" && x.entityId == tid) = some f := hf
    show (saveFailed now maxRetries db tid err).failures.find?
      (fun x => x.entityType == "audio" && x.entityId == tid) = _
    simp only [saveFailed, ht, findFailure, hfu]
    exact find?_map_update _ _ _ _ hfu (fun x hx => hx)

/-- Witness for C5: a first failure of the sample track inserts a ledger row
with retry count 1 and marks the track failed with retry count 1. -/
theorem save_failed_updates_track_and_ledger_witness :
    findTrack (saveFailed 7 3 sampleDb "t1" "oops") "t1" =
      some { sampleStale with
          analysisStatus := "failed"
          analysisError := some (truncate500 "oops")
          analysisRetryCount := some (rc0 sampleStale + 1) } ∧
    findFailure (saveFailed 7 3 sampleDb "t1" "oops") "audio" "t1" =
      some { entityType := "audio"
             entityId := "t1"
             entityName := sampleStale.title
             errorMessage := truncate500 "oops"
             lastFailedAt := 7
             retryCount := 1
             metadata := { filePath := some sampleStale.filePath
                           artistId := sampleStale.artistId
                           retryCount := rc0 sampleStale + 1
                           maxRetries := 3 }
             resolved := false
             skipped := false } :=
  ⟨(save_failed_updates_track_and_ledger 7 3 sampleDb "t1" "oops" sampleStale
      (by decide)).1,
   (save_failed_updates_track_and_ledger 7 3 sampleDb "t1" "oops" sampleStale
      (by decide)).2.2.1 (by decide)⟩

/-- Counterexample to C2: in the ledger-lag scenario the task reaches the
retry ceiling (TaskStore retry count 3 = maxRetries, status `failed`), but
its FailureLedger row records only 2 failures, because the stale-processing
sweep incremented the TaskStore count without writing the ledger. -/
theorem permanent_failure_ledger_counterexample :
    (findTrack cxDbFinal "cx").map rc0 = some 3 ∧
    (findTrack cxDbFinal "cx").map Track.analysisStatus = some "failed" ∧
    ledgerRetryCount cxDbFinal "cx" = 2 ∧
    ledgerRetryCount cxDbFinal "cx" ≠ 3 := by decide

/-- C2 (amended): after any failure of an existing task the ledger and
TaskStore retry counts agree provided they agreed before the failure (every
increment came through the failure path); a stale-processing sweep increment
bypasses the ledger and breaks that agreement.  Independently, no sweep ever
resets a `failed` task at or above the ceiling back to `pending`: the stale
sweep only touches `processing` rows and the failed-retry sweep requires a
retry count strictly below the maximum. -/
theorem permanent_failure_ledger_lockstep (now : Int) (maxRetries : Nat)
    (db : DB) (tid err : String) (t : Track)
    (ht : findTrack db tid = some t)
    (hsync : ledgerRetryCount db tid = rc0 t) :
    ((findTrack (saveFailed now maxRetries db tid err) tid).map rc0 =
      some (ledgerRetryCount (saveFailed now maxRetries db tid err) tid)) ∧
    (∀ now2 stale2 : Int, ∀ u : Track, u.analysisStatus = "failed" →
      cleanupStaleOne now2 stale2 maxRetries u = u) ∧
    (∀ u : Track, u.analysisStatus = "failed" → maxRetries ≤ rc0 u →
      retryFailedOne maxRetries u = u) := by
  have htu : db.tracks.find? (fun u => u.id == tid) = some t := ht
  have hpt : (t.id == tid) = true := by simpa using List.find?_some htu
  refine ⟨?_, ?_, ?_⟩
  · have htrack : (saveFailed now maxRetries db tid err).tracks.find?
        (fun u => u.id == tid) = some { t with
          analysisStatus := "failed"
          analysisError := some (truncate500 err)
          analysisRetryCount := some (rc0 t + 1) } := by
      simp only [saveFailed, ht]
      exact find?_map_update _ _ _ _ htu (fun x _ => hpt)
    have hmap : (findTrack (saveFailed now maxRetries db tid err) tid).map rc0 =
        some (rc0 t + 1) := by
      show ((saveFailed now maxRetries db tid err).tracks.find?
        (fun u => u.id == tid)).map rc0 = _
      rw [htrack]
      simp [rc0]
    rw [hmap]
    cases hnf : findFailure db "audio" tid with
    | none =>
      have h0 : rc0 t = 0 := by
        have := hsync
        simp [ledgerRetryCount, hnf] at this
        omega
      have hn : db.failures.find?
          (fun f => f.entityType == "audio" && f.entityId == tid) = none := hnf
      have hled : (saveFailed now maxRetries db tid err).failures.find?
          (fun f => f.entityType == "audio" && f.entityId == tid) =
          some { entityType := "audio"
                 entityId := tid
                 entityName := t.title
                 errorMessage := truncate500 err
                 lastFailedAt := now
                 retryCount := 1
                 metadata := { filePath := some t.filePath
                               artistId := t.artistId
                               retryCount := rc0 t + 1
                               maxRetries := maxRetries }
                 resolved := false
                 skipped := false } := by
        simp only [saveFailed, ht, findFailure, hn]
        exact find?_append_singleton _ _ _ hn (by simp)
      show _ = some (ledgerRetryCount _ tid)
      simp only [ledgerRetryCount, findFailure]
      rw [hled, h0]
    | some f =>
      have hsf : f.retryCount = rc0 t := by
        have := hsync
        simpa [ledgerRetryCount, hnf] using this
      have hfu : db.failures.find?
          (fun x => x.entityType == "audio" && x.entityId == tid) = some f := hnf
      have hled : (saveFailed now maxRetries db tid err).failures.find?
          (fun x => x.entityType == "audio" && x.entityId == tid) =
          some { f with
              errorMessage := truncate500 err
              lastFailedAt := now
              retryCount := f.retryCount + 1
              metadata := { filePath := some t.filePath
                            artistId := t.artistId
                            retryCount := rc0 t + 1
                            maxRetries := maxRetries }
              resolved := false
              skipped := false } := by
        simp only [saveFailed, ht, findFailure, hfu]
        exact find?_map_update _ _ _ _ hfu (fun x hx => hx)
      show _ = some (ledgerRetryCount _ tid)
      simp only [ledgerRetryCount, findFailure]
      rw [hled, hsf]
  · intro now2 stale2 u hu
    simp [cleanupStaleOne, hu]
  · intro u hu hrc
    have hn : ¬ rc0 u < maxRetries := Nat.not_lt.mpr hrc
    simp [retryFailedOne, hn]

/-- Witness for the amended C2 at a first failure of the sample track. -/
theorem permanent_failure_ledger_lockstep_witness :
    (findTrack (saveFailed 1 3 sampleDb "t1" "x") "t1").map rc0 =
      some (ledgerRetryCount (saveFailed 1 3 sampleDb "t1" "x") "t1") :=
  (permanent_failure_ledger_lockstep 1 3 sampleDb "t1" "x" sampleStale
    (by decide) (by decide)).1

/-- C3: a `set_workers` command whose clamped count equals the current pool
size leaves the state untouched and performs no pool action; a different
clamped count installs the new size, creating the new pool first and only
then shutting the old pool down with `wait = true`, so every future already
submitted to the old pool resolves before the pool is released. -/
theorem set_workers_resize (st : LoopState) (count : Int) :
    (clampWorkers count = st.numWorkers →
      checkControlSignals st (ControlSignal.setWorkers (some count)) = (st, [])) ∧
    (clampWorkers count ≠ st.numWorkers →
      checkControlSignals st (ControlSignal.setWorkers (some count)) =
        ({ st with
            numWorkers := clampWorkers count
            pool := st.nextPool
            nextPool := st.nextPool + 1 },
          [Effect.createPool (clampWorkers count),
            Effect.shutdownPool st.pool true])) := by
  constructor
  · intro h
    simp [checkControlSignals, resizeWorkerPool, h]
  · intro h
    simp [checkControlSignals, resizeWorkerPool, h]

/-- Witness for C3: resizing the sample two-worker state to four workers. -/
theorem set_workers_resize_witness :
    checkControlSignals sampleLoopState (ControlSignal.setWorkers (some 4)) =
      ({ sampleLoopState with
          numWorkers := clampWorkers 4
          pool := sampleLoopState.nextPool
          nextPool := sampleLoopState.nextPool + 1 },
        [Effect.createPool (clampWorkers 4),
          Effect.shutdownPool sampleLoopState.pool true]) :=
  (set_workers_resize sampleLoopState 4).2 (by decide)

/-- Counterexample to C8: with no worker count in the database and
`NUM_WORKERS=20` in the environment, `_get_workers_from_db` returns 20
without clamping, so the pool is created outside [1,8]. -/
theorem worker_count_env_counterexample :
    getWorkersFromDb DbWorkersFetch.noRow (some 20) = 20 ∧
    ¬ getWorkersFromDb DbWorkersFetch.noRow (some 20) ≤ 8 := by decide

/-- C8 (amended): the database-configured value and every `set_workers`
command are clamped into [1,8] before a pool is created, and the built-in
default is 2 (inside [1,8]); the environment-variable fallback, however, is
used unclamped, so only paths that do not read `NUM_WORKERS` from the
environment keep the pool size inside [1,8]. -/
theorem worker_count_clamp_paths (w c : Int) (env : Option Int)
    (st : LoopState) :
    (1 ≤ getWorkersFromDb (DbWorkersFetch.row (some w)) env ∧
      getWorkersFromDb (DbWorkersFetch.row (some w)) env ≤ 8) ∧
    (getWorkersFromDb DbWorkersFetch.noRow none = 2 ∧
      getWorkersFromDb DbWorkersFetch.dbError none = 2 ∧
      getWorkersFromDb (DbWorkersFetch.row none) none = 2) ∧
    (1 ≤ clampWorkers c ∧ clampWorkers c ≤ 8) ∧
    ((checkControlSignals st (ControlSignal.setWorkers (some c))).1.numWorkers
        = st.numWorkers ∨
      (1 ≤ (checkControlSignals st
              (ControlSignal.setWorkers (some c))).1.numWorkers ∧
        (checkControlSignals st
            (ControlSignal.setWorkers (some c))).1.numWorkers ≤ 8)) := by
  refine ⟨?_, ⟨by decide, by decide, by decide⟩, ?_, ?_⟩
  · simp only [getWorkersFromDb, clampWorkers]
    omega
  · simp only [clampWorkers]
    omega
  · by_cases h : clampWorkers c = st.numWorkers
    · left
      simp [checkControlSignals, resizeWorkerPool, h]
    · right
      simp only [checkControlSignals, resizeWorkerPool]
      rw [if_neg (by simpa using h)]
      simp only [clampWorkers, Option.getD]
      constructor <;> omega

theorem checkControl_running (st : LoopState) (sig : ControlSignal)
    (h : sig ≠ ControlSignal.stop) :
    (checkControlSignals st sig).1.running = st.running := by
  cases sig with
  | setWorkers c =>
    simp only [checkControlSignals, resizeWorkerPool]
    split <;> rfl
  | pause => rfl
  | resume => rfl
  | stop => exact absurd rfl h
  | ignored => rfl

theorem checkControl_counter (st : LoopState) (sig : ControlSignal) :
    (checkControlSignals st sig).1.consecutiveEmpty = st.consecutiveEmpty := by
  cases sig with
  | setWorkers c =>
    simp only [checkControlSignals, resizeWorkerPool]
    split <;> rfl
  | pause => rfl
  | resume => rfl
  | stop => rfl
  | ignored => rfl

theorem checkControl_no_sweeps (st : LoopState) (sig : ControlSignal) :
    Effect.staleSweep ∉ (checkControlSignals st sig).2 ∧
    Effect.failedRetrySweep ∉ (checkControlSignals st sig).2 := by
  cases sig with
  | setWorkers c =>
    simp only [checkControlSignals, resizeWorkerPool]
    split <;> simp
  | pause => simp [checkControlSignals]
  | resume => simp [checkControlSignals]
  | stop => simp [checkControlSignals]
  | ignored => simp [checkControlSignals]

theorem loopTick_preserves_running (sleepInterval : Nat) (st : LoopState)
    (sig : ControlSignal) (out : BodyOutcome)
    (hsig : sig ≠ ControlSignal.stop)
    (hout : out ≠ BodyOutcome.keyboardInterrupt) :
    (loopTick sleepInterval st sig out).1.running = st.running := by
  rcases hcc : checkControlSignals st sig with ⟨st1, acts1⟩
  have h1 : st1.running = st.running := by
    have := checkControl_running st sig hsig
    rw [hcc] at this
    exact this
  unfold loopTick
  rw [hcc]
  by_cases hp : st1.isPaused
  · simpa [hp] using h1
  · cases out with
    | ok hasWork =>
      by_cases hw : hasWork = true
      · simpa [hp, hw] using h1
      · have hw0 : hasWork = false := by simpa using hw
        subst hw0
        by_cases h10 : 10 ≤ st1.consecutiveEmpty + 1
        · simpa [hp, h10] using h1
        · simpa [hp, h10] using h1
    | keyboardInterrupt => exact absurd rfl hout
    | poolBroken => simpa [hp, recreatePool] using h1
    | otherError ph =>
      by_cases h5 : 5 ≤ st1.consecutiveEmpty + 1
      · cases ph <;> simpa [hp, h5, recreatePool] using h1
      · simpa [hp, h5] using h1

/-- C4: while running, a loop tick clears `running` only on a `stop` control
signal or a `KeyboardInterrupt`; every caught error, the broken-pool case
included, leaves the loop running.  A broken pool detected while not paused
makes the tick recreate the pool (non-blocking shutdown of the old pool,
cooldown, fresh pool of the configured size) and run the stale-processing
sweep immediately afterwards. -/
theorem loop_tick_survives_errors (sleepInterval : Nat) (st : LoopState)
    (sig : ControlSignal) (out : BodyOutcome) (hrun : st.running = true) :
    ((loopTick sleepInterval st sig out).1.running = false →
      sig = ControlSignal.stop ∨ out = BodyOutcome.keyboardInterrupt) ∧
    (sig ≠ ControlSignal.stop → out ≠ BodyOutcome.keyboardInterrupt →
      (loopTick sleepInterval st sig out).1.running = true) ∧
    (out = BodyOutcome.poolBroken →
      (checkControlSignals st sig).1.isPaused = false →
      (loopTick sleepInterval st sig out).2 =
        (checkControlSignals st sig).2 ++
          [Effect.shutdownPool (checkControlSignals st sig).1.pool false,
            Effect.sleepSec 2,
            Effect.createPool (checkControlSignals st sig).1.numWorkers,
            Effect.staleSweep]) := by
  refine ⟨?_, ?_, ?_⟩
  · intro hfalse
    by_cases hsig : sig = ControlSignal.stop
    · exact Or.inl hsig
    · by_cases hout : out = BodyOutcome.keyboardInterrupt
      · exact Or.inr hout
      · have := loopTick_preserves_running sleepInterval st sig out hsig hout
        rw [hrun] at this
        rw [this] at hfalse
        cases hfalse
  · intro hsig hout
    have := loopTick_preserves_running sleepInterval st sig out hsig hout
    rw [this, hrun]
  · intro hpb hnp
    subst hpb
    rcases hcc : checkControlSignals st sig with ⟨st1, acts1⟩
    rw [hcc] at hnp
    simp only at hnp
    unfold loopTick
    rw [hcc]
    simp [hnp, recreatePool]

/-- Witness for C4: a generic error on the sample state leaves the loop
running, and a broken pool produces the recreate-then-sweep trace. -/
theorem loop_tick_survives_errors_witness :
    (loopTick 5 sampleLoopState ControlSignal.ignored
        (BodyOutcome.otherError true)).1.running = true ∧
    (loopTick 5 sampleLoopState ControlSignal.ignored
        BodyOutcome.poolBroken).2 =
      (checkControlSignals sampleLoopState ControlSignal.ignored).2 ++
        [Effect.shutdownPool
            (checkControlSignals sampleLoopState ControlSignal.ignored).1.pool
            false,
          Effect.sleepSec 2,
          Effect.createPool
            (checkControlSignals sampleLoopState ControlSignal.ignored).1.numWorkers,
          Effect.staleSweep] :=
  ⟨(loop_tick_survives_errors 5 sampleLoopState ControlSignal.ignored
      (BodyOutcome.otherError true) rfl).2.1 (by decide) (by decide),
   (loop_tick_survives_errors 5 sampleLoopState ControlSignal.ignored
      BodyOutcome.poolBroken rfl).2.2 rfl (by decide)⟩

/-- C9: on a running, unpaused tick whose batch body completes normally, an
empty batch increments the idle counter, and exactly when that counter
reaches 10 the tick runs the stale-processing sweep followed by the
failed-retry sweep and resets the counter to zero; below the threshold no
sweep runs; a tick with work resets the counter to zero. -/
theorem idle_counter_threshold (sleepInterval : Nat) (st : LoopState)
    (sig : ControlSignal) (hasWork : Bool)
    (_hrun : st.running = true)
    (hinv : st.consecutiveEmpty ≤ 9)
    (hnp : (checkControlSignals st sig).1.isPaused = false) :
    (hasWork = false → st.consecutiveEmpty = 9 →
      (loopTick sleepInterval st sig (BodyOutcome.ok hasWork)).1.consecutiveEmpty
          = 0 ∧
      (loopTick sleepInterval st sig (BodyOutcome.ok hasWork)).2 =
        (checkControlSignals st sig).2 ++
          [Effect.staleSweep, Effect.failedRetrySweep]) ∧
    (hasWork = false → st.consecutiveEmpty ≠ 9 →
      (loopTick sleepInterval st sig (BodyOutcome.ok hasWork)).1.consecutiveEmpty
          = st.consecutiveEmpty + 1 ∧
      Effect.staleSweep ∉ (loopTick sleepInterval st sig (BodyOutcome.ok hasWork)).2 ∧
      Effect.failedRetrySweep ∉
        (loopTick sleepInterval st sig (BodyOutcome.ok hasWork)).2) ∧
    (hasWork = true →
      (loopTick sleepInterval st sig (BodyOutcome.ok hasWork)).1.consecutiveEmpty
          = 0) := by
  rcases hcc : checkControlSignals st sig with ⟨st1, acts1⟩
  have hc1 : st1.consecutiveEmpty = st.consecutiveEmpty := by
    have := checkControl_counter st sig
    rw [hcc] at this
    exact this
  have hp1 : st1.isPaused = false := by
    rw [hcc] at hnp
    exact hnp
  have hns := checkControl_no_sweeps st sig
  rw [hcc] at hns
  refine ⟨?_, ?_, ?_⟩
  · intro hw h9
    subst hw
    have h10 : 10 ≤ st1.consecutiveEmpty + 1 := by omega
    unfold loopTick
    rw [hcc]
    simp [hp1, h10]
  · intro hw h9
    subst hw
    have h10 : ¬ 9 ≤ st.consecutiveEmpty := by omega
    unfold loopTick
    rw [hcc]
    simp [hp1, hc1, h10, hns.1, hns.2]
  · intro hw
    subst hw
    unfold loopTick
    rw [hcc]
    simp [hp1]

/-- Witness for C9: at counter 9 the sample tick runs both sweeps and resets
the counter. -/
theorem idle_counter_threshold_witness :
    (loopTick 5 { sampleLoopState with consecutiveEmpty := 9 }
        ControlSignal.ignored (BodyOutcome.ok false)).1.consecutiveEmpty = 0 ∧
    (loopTick 5 { sampleLoopState with consecutiveEmpty := 9 }
        ControlSignal.ignored (BodyOutcome.ok false)).2 =
      (checkControlSignals { sampleLoopState with consecutiveEmpty := 9 }
          ControlSignal.ignored).2 ++
        [Effect.staleSweep, Effect.failedRetrySweep] :=
  (idle_counter_threshold 5 { sampleLoopState with consecutiveEmpty := 9 }
    ControlSignal.ignored false rfl (by decide) (by decide)).1 rfl rfl

/-- C7 (amended): when the push queue yields nothing, any result of the
fallback pull query holds at most `batchSize` tracks, all in status
`pending`, arranged weakly most-recently-modified-first by `fileModified`;
the order among tracks with equal `fileModified` is not determined (the query
has no id tie-break), and an empty pending set yields an empty batch rather
than an error. -/
theorem pull_query_bounds (tracks : List Track) (batchSize : Nat)
    (res : List Track) (h : isValidPullResult tracks batchSize res)
    (queue : List QueueJob) (hq : queue = []) :
    drainQueue queue batchSize = [] ∧
    res.length ≤ batchSize ∧
    (∀ t ∈ res, t.analysisStatus = "pending") ∧
    res.Pairwise (fun a b => b.fileModified ≤ a.fileModified) ∧
    (pendingTracks tracks = [] → res = []) := by
  obtain ⟨ordered, hperm, hsort, hres⟩ := h
  subst hq
  subst hres
  refine ⟨by simp [drainQueue], List.length_take_le _ _, ?_, ?_, ?_⟩
  · intro t ht
    have hmem : t ∈ ordered := List.mem_of_mem_take ht
    have hmem2 : t ∈ pendingTracks tracks := hperm.mem_iff.mp hmem
    have := List.mem_filter.mp hmem2
    simpa using this.2
  · exact hsort.sublist (List.take_sublist _ _)
  · intro hp
    have : ordered = [] := (hperm.trans (by rw [hp])).eq_nil
    simp [this]

/-- Counterexample to C7's tie-break clause: with two pending tracks tied on
`fileModified`, both arrangements are valid results of the pull query, so the
result is not ordered by any id tie-break. -/
theorem pull_query_tiebreak_counterexample :
    isValidPullResult pullDemo 2 [pullTrackA, pullTrackB] ∧
    isValidPullResult pullDemo 2 [pullTrackB, pullTrackA] ∧
    ([pullTrackA, pullTrackB] : List Track) ≠ [pullTrackB, pullTrackA] := by
  refine ⟨⟨[pullTrackA, pullTrackB], ?_, ?_, rfl⟩,
    ⟨[pullTrackB, pullTrackA], ?_, ?_, rfl⟩, by decide⟩
  · show List.Perm _ (pendingTracks pullDemo)
    have : pendingTracks pullDemo = [pullTrackA, pullTrackB] := by decide
    rw [this]
  · decide
  · show List.Perm _ (pendingTracks pullDemo)
    have : pendingTracks pullDemo = [pullTrackA, pullTrackB] := by decide
    rw [this]
    exact List.Perm.swap pullTrackA pullTrackB []
  · decide

/-- Witness for the amended C7 on the two-track demo store. -/
theorem pull_query_bounds_witness :
    drainQueue [] 2 = [] ∧
    ([pullTrackB, pullTrackA] : List Track).length ≤ 2 ∧
    (∀ t ∈ ([pullTrackB, pullTrackA] : List Track),
      t.analysisStatus = "pending") ∧
    ([pullTrackB, pullTrackA] : List Track).Pairwise
      (fun a b => b.fileModified ≤ a.fileModified) ∧
    (pendingTracks pullDemo = [] → ([pullTrackB, pullTrackA] : List Track) = []) :=
  pull_query_bounds pullDemo 2 [pullTrackB, pullTrackA]
    ⟨[pullTrackB, pullTrackA],
      by
        have : pendingTracks pullDemo = [pullTrackA, pullTrackB] := by decide
        rw [this]
        exact List.Perm.swap pullTrackA pullTrackB [],
      by decide, rfl⟩
    [] rfl
